import Mathlib

/-!
Verification of the terrain-aware camera orbit controllers of the Kaban
repository.  The JavaScript classes `OrbitController`, `CinematicOrbit` and
`SmoothCameraOrbit` (src/unnamed/part_001), `OrbitCamera`
(src/unnamed/part_000) and the orbit loop of src/components/RefugeModal.jsx
are shallowly embedded: numeric values are idealised as real numbers, host
(maplibre) calls are passed in as explicit inputs — an elevation query is an
`Except Unit (Option ℝ)` (`error` = the host threw, `ok none` = the host
returned null/undefined/NaN, `ok (some v)` = a numeric sample `v`) — and the
mutable class state is threaded explicitly through the methods.
-/

noncomputable section

open Real

/-- JavaScript truncation towards zero, as used by the `%` operator. -/
def jsTrunc (x : ℝ) : ℤ := if 0 ≤ x then ⌊x⌋ else ⌈x⌉

/-- The JavaScript remainder operator `a % b`: `a - b * trunc (a / b)`.
Unlike the Euclidean modulus it keeps the sign of the dividend `a`. -/
def jsMod (a b : ℝ) : ℝ := a - b * jsTrunc (a / b)

/-- Degrees to radians, `deg * Math.PI / 180` (`toRad` in part_001,
`toRadians` in RefugeModal.jsx). -/
def toRad (deg : ℝ) : ℝ := deg * Real.pi / 180

/-- A resolved camera pose in the meters domain: camera horizontal
geo-position, camera altitude, look-at altitude. -/
structure CamPose where
  camLng : ℝ
  camLat : ℝ
  camZ : ℝ
  lookAtZ : ℝ

/-- Lifecycle phase of `OrbitController`: `'idle' | 'intro' | 'orbit'`. -/
inductive OCPhase
  | idle
  | intro
  | orbit
deriving DecidableEq

namespace OrbitController

/-- Mutable fields of the `OrbitController` class (src/unnamed/part_001,
lines 56-80).  `animationFrame` records whether a frame callback is
scheduled; `lastTimestamp = none` models the JS value `null`. -/
structure State where
  disposed : Bool
  phase : OCPhase
  bearing : ℝ
  radius : ℝ
  height : ℝ
  groundElevation : ℝ
  lastTimestamp : Option ℝ
  isPaused : Bool
  animationFrame : Bool

/-- `this.orbitSpeed = 10` (degrees per second). -/
def orbitSpeed : ℝ := 10

/-- `this.minClearance = 100` (minimum altitude above terrain). -/
def minClearance : ℝ := 100

/-- The value computed by `queryElevation` from a host response when the
controller is live: null/undefined/NaN responses and thrown exceptions fall
back to the cached ground elevation `g` (part_001 lines 86-94). -/
def queryElevationRaw (g : ℝ) (host : Except Unit (Option ℝ)) : ℝ :=
  match host with
  | .error _ => g
  | .ok none => g
  | .ok (some v) => v

/-- `OrbitController.queryElevation` (part_001 lines 86-94).  When disposed
(the `this.disposed || !this.map` guard) it returns the cached elevation. -/
def queryElevation (s : State) (host : Except Unit (Option ℝ)) : ℝ :=
  if s.disposed then s.groundElevation else queryElevationRaw s.groundElevation host

/-- `OrbitController.refreshGroundElevation` (part_001 lines 116-121): the
cache is overwritten only by a strictly positive sample. -/
def refreshGroundElevation (s : State) (host : Except Unit (Option ℝ)) : State :=
  let elev := queryElevation s host
  if 0 < elev then { s with groundElevation := elev } else s

/-- `OrbitController.radiusForZoom` (part_001 lines 131-135). -/
def radiusForZoom (zoom : ℝ) : ℝ :=
  max 80 (min (220 * (1.5 : ℝ) ^ ((14 : ℝ) - zoom)) 2000)

/-- `OrbitController.heightForRadius` (part_001 lines 137-139). -/
def heightForRadius (r : ℝ) : ℝ := r * 0.6

/-- `OrbitController.computeCameraPosition` (part_001 lines 145-171).  The
host elevation response at the camera's horizontal position is an input. -/
def computeCameraPosition (s : State) (targetLng targetLat : ℝ)
    (hostAtCam : Except Unit (Option ℝ)) : CamPose :=
  let bearingRad := toRad s.bearing
  let mPerDegLat : ℝ := 111320
  let mPerDegLng := mPerDegLat * Real.cos (toRad targetLat)
  let dLng := Real.sin bearingRad * s.radius / mPerDegLng
  let dLat := Real.cos bearingRad * s.radius / mPerDegLat
  let camLng := targetLng + dLng
  let camLat := targetLat + dLat
  let terrainAtCam := queryElevation s hostAtCam
  let lookAtZ := s.groundElevation + 10
  let desiredZ := s.groundElevation + s.height
  let minZ := max terrainAtCam s.groundElevation + minClearance
  let camZ := max desiredZ minZ
  ⟨camLng, camLat, camZ, lookAtZ⟩

/-- Host-supplied inputs consumed by one `tick` frame: the callback
timestamp, the outcome of the `Math.random() < 0.01` draw, the elevation
response at the orbit target, the current host zoom, and the elevation
response at the camera position used by `applyFreeCamera`. -/
structure TickEnv where
  timestamp : ℝ
  refreshDraw : Bool
  hostAtTarget : Except Unit (Option ℝ)
  zoom : ℝ
  hostAtCam : Except Unit (Option ℝ)

/-- `OrbitController.tick` (part_001 lines 201-230).  Returns the new state
together with a flag telling whether the camera pose was resolved and
applied this frame.  An early return leaves the state unchanged and does not
request another frame. -/
def tick (s : State) (env : TickEnv) : State × Bool :=
  if s.disposed ∨ s.phase ≠ OCPhase.orbit then (s, false)
  else
    let last := s.lastTimestamp.getD env.timestamp
    let dt := min ((env.timestamp - last) / 1000) 0.1
    let s1 := { s with lastTimestamp := some env.timestamp }
    let s2 := if env.refreshDraw then refreshGroundElevation s1 env.hostAtTarget else s1
    let targetRadius := radiusForZoom env.zoom
    let radius' := s2.radius + (targetRadius - s2.radius) * min (dt * 2) 0.1
    let s3 := { s2 with radius := radius', height := heightForRadius radius' }
    let s4 :=
      if s3.isPaused then s3
      else { s3 with bearing := jsMod (s3.bearing + orbitSpeed * dt) 360 }
    ({ s4 with animationFrame := true }, true)

/-- `OrbitController.pause` (part_001 lines 297-299). -/
def pause (s : State) : State := { s with isPaused := true }

/-- `OrbitController.resume` (part_001 lines 301-304): clears the delta-time
anchor so the next frame cannot see a large `dt`. -/
def resume (s : State) : State := { s with isPaused := false, lastTimestamp := none }

/-- `OrbitController.dispose` (part_001 lines 306-314): cancels the pending
frame callback. -/
def dispose (s : State) : State :=
  { s with disposed := true, phase := OCPhase.idle, animationFrame := false }

/-- `OrbitController.waitForTerrain` (part_001 lines 96-114), unrolled over
poll iterations: iteration `i` runs at elapsed time `i * interval`
milliseconds and the loop body runs while that is below `maxWait`.  Returns
the resulting `groundElevation`, the boolean result, and the number of host
queries made.  The fuel argument is structural only; it is chosen large
enough that the timeout branch, not fuel exhaustion, ends the loop. -/
def waitForTerrainAux (host : ℕ → Except Unit (Option ℝ)) (disposedAt : ℕ → Bool)
    (g maxWait interval : ℝ) : ℕ → ℕ → ℝ × Bool × ℕ
  | 0, i => (0, false, i)
  | n + 1, i =>
    if (i : ℝ) * interval < maxWait then
      if disposedAt i then (g, false, i)
      else
        let elev := queryElevationRaw g (host i)
        if 0 < elev then (elev, true, i + 1)
        else waitForTerrainAux host disposedAt g maxWait interval n (i + 1)
    else (0, false, i)

/-- `waitForTerrain` with its default arguments `maxWait = 3000` and the
fixed `100` ms poll interval; at most `3000 / 100 = 30` iterations run, so
fuel `31` is never exhausted. -/
def waitForTerrain (host : ℕ → Except Unit (Option ℝ)) (disposedAt : ℕ → Bool)
    (g : ℝ) : ℝ × Bool × ℕ :=
  waitForTerrainAux host disposedAt g 3000 100 31 0

/-- Host interaction consumed by one `start` call (part_001 lines 236-295):
elevation responses during the terrain wait, the disposed flag as observed
at each poll / after the wait / in the `moveend` callback (the two disposed
guards of the callback and its 50 ms timeout are collapsed into one
observation), the starting host bearing, whether the host fires `moveend`
after `easeTo`, the bearing the map ended at, and the elevation response of
the final `refreshGroundElevation`. -/
structure StartEnv where
  hostDuringWait : ℕ → Except Unit (Option ℝ)
  disposedDuringWait : ℕ → Bool
  disposedAfterWait : Bool
  hostBearing : ℝ
  moveEndFires : Bool
  disposedAtMoveEnd : Bool
  moveEndBearing : ℝ
  hostAtMoveEnd : Except Unit (Option ℝ)

/-- `OrbitController.start` (part_001 lines 236-295): guard on `disposed`,
set phase `'intro'`, wait for terrain, initialise the orbit parameters for
the `easeTo` end state (`endZoom = 14.5`, `endBearing = startBearing + 45`),
and — once the host fires `moveend` and the controller is still live —
refresh the ground elevation, take the map's actual bearing, enter the
`'orbit'` phase and schedule the first frame. -/
def start (s : State) (env : StartEnv) : State :=
  if s.disposed then s
  else
    let s1 := { s with phase := OCPhase.intro }
    let w := waitForTerrain env.hostDuringWait env.disposedDuringWait s1.groundElevation
    let s2 := { s1 with groundElevation := w.1 }
    if env.disposedAfterWait then s2
    else
      let s3 := { s2 with
        bearing := env.hostBearing + 45,
        radius := radiusForZoom 14.5,
        height := heightForRadius (radiusForZoom 14.5) }
      if env.moveEndFires && !env.disposedAtMoveEnd then
        let s4 := refreshGroundElevation s3 env.hostAtMoveEnd
        { s4 with bearing := env.moveEndBearing, phase := OCPhase.orbit,
                  lastTimestamp := none, animationFrame := true }
      else s3

end OrbitController

/-- `CinematicOrbit.introPhase`: `'pending' | 'running' | 'complete'`. -/
inductive IntroPhase
  | pending
  | running
  | complete
deriving DecidableEq

namespace CinematicOrbit

/-- Mutable fields of the `CinematicOrbit` class (src/unnamed/part_001,
lines 901-937).  `introStartTime = none` models the JS value `null`. -/
structure CState where
  bearing : ℝ
  radius : ℝ
  height : ℝ
  targetRadius : ℝ
  targetHeight : ℝ
  groundElevation : ℝ
  lastZoom : ℝ
  isRunning : Bool
  isPaused : Bool
  animationFrame : Bool
  introPhase : IntroPhase
  introStartTime : Option ℝ

/-- `this.orbitSpeed = 0.08` (degrees per frame). -/
def orbitSpeed : ℝ := 0.08

/-- `this.radiusSmoothing = 0.015`. -/
def radiusSmoothing : ℝ := 0.015

/-- `this.heightSmoothing = 0.015`. -/
def heightSmoothing : ℝ := 0.015

/-- `this.minClearance = 60`. -/
def minClearance : ℝ := 60

/-- `this.introDuration = 4000`. -/
def introDuration : ℝ := 4000

/-- `CinematicOrbit.getTerrainElevation` (part_001 lines 947-950): the
nullish-coalescing fallback `elev ?? this.groundElevation` covers a
null/undefined response, but there is no try/catch, so a throwing host
query propagates (`Except.error`). -/
def getTerrainElevation (host : Except Unit (Option ℝ)) (g : ℝ) : Except Unit ℝ :=
  match host with
  | .error e => .error e
  | .ok none => .ok g
  | .ok (some v) => .ok v

/-- `CinematicOrbit.updateGroundElevation` (part_001 lines 952-955): the
cache is overwritten by every non-null sample (`if (elev != null)`), with no
positivity guard. -/
def updateGroundElevation (s : CState) (host : Option ℝ) : CState :=
  match host with
  | some e => { s with groundElevation := e }
  | none => s

/-- `CinematicOrbit.computeRadiusForZoom` (part_001 lines 961-966). -/
def computeRadiusForZoom (zoom : ℝ) : ℝ :=
  max 80 (min (260 * (1.45 : ℝ) ^ ((14 : ℝ) - zoom)) 2000)

/-- `CinematicOrbit.computeHeightForRadius` (part_001 lines 971-974). -/
def computeHeightForRadius (radius : ℝ) : ℝ := radius * 0.7

/-- `CinematicOrbit.easeInOutSine` (part_001 lines 981-983). -/
def easeInOutSine (t : ℝ) : ℝ := -(Real.cos (Real.pi * t) - 1) / 2

/-- `CinematicOrbit.easeOutQuart` (part_001 lines 986-988). -/
def easeOutQuart (t : ℝ) : ℝ := 1 - (1 - t) ^ 4

/-- `CinematicOrbit.easeSpiral` (part_001 lines 991-1004). -/
def easeSpiral (t : ℝ) : ℝ :=
  if t < 0.3 then 0.3 * easeInOutSine (t / 0.3) * (1 / 0.3) * 0.15
  else if t < 0.7 then 0.15 + (t - 0.3) * 1.75
  else 0.85 + 0.15 * easeOutQuart ((t - 0.7) / 0.3)

/-- `CinematicOrbit.computeCameraPosition` (part_001 lines 1013-1038).  The
terrain sample at the camera's horizontal position goes through
`getTerrainElevation`, so a throwing host query propagates. -/
def computeCameraPosition (s : CState) (targetLng targetLat : ℝ)
    (hostAtCam : Except Unit (Option ℝ)) : Except Unit CamPose :=
  let bearingRad := toRad s.bearing
  let mPerDegLat : ℝ := 111320
  let mPerDegLng := mPerDegLat * Real.cos (toRad targetLat)
  let dLng := Real.sin bearingRad * s.radius / mPerDegLng
  let dLat := Real.cos bearingRad * s.radius / mPerDegLat
  let camLng := targetLng + dLng
  let camLat := targetLat + dLat
  match getTerrainElevation hostAtCam s.groundElevation with
  | .error e => .error e
  | .ok terrainAtCam =>
    let lookAtZ := s.groundElevation + 8
    let desiredCamZ := s.groundElevation + s.height
    let safeCamZ := max desiredCamZ (terrainAtCam + minClearance)
    .ok ⟨camLng, camLat, safeCamZ, lookAtZ⟩

/-- `CinematicOrbit.tickIntro` (part_001 lines 1078-1110).  The guard
`if (!this.introStartTime)` is truthy both for `null` and for a stored
timestamp equal to `0`, hence the `getD 0 = 0` test. -/
def tickIntro (s : CState) (now : ℝ) : CState :=
  let s0 :=
    if s.introStartTime.getD 0 = 0 then
      { s with introStartTime := some now, radius := 50, height := 1400, bearing := 0 }
    else s
  let elapsed := now - s0.introStartTime.getD 0
  let rawProgress := min (elapsed / introDuration) 1
  let radiusProgress := easeOutQuart rawProgress
  let heightProgress := easeInOutSine rawProgress
  let bearingProgress := easeSpiral rawProgress
  let startRadius : ℝ := 50
  let startHeight : ℝ := 1400
  let s1 := { s0 with
    radius := startRadius + (s0.targetRadius - startRadius) * radiusProgress,
    height := startHeight + (s0.targetHeight - startHeight) * heightProgress,
    bearing := bearingProgress * 540 }
  if 1 ≤ rawProgress then
    { s1 with introPhase := IntroPhase.complete, bearing := jsMod s1.bearing 360 }
  else s1

/-- `CinematicOrbit.checkZoomChange` (part_001 lines 1119-1129). -/
def checkZoomChange (s : CState) (zoom : ℝ) : CState :=
  if 0.1 < |zoom - s.lastZoom| then
    let tr := computeRadiusForZoom zoom
    { s with lastZoom := zoom, targetRadius := tr,
             targetHeight := computeHeightForRadius tr }
  else s

/-- `CinematicOrbit.tickOrbit` (part_001 lines 1134-1150): a no-op while
paused, otherwise zoom tracking, exponential smoothing of radius/height and
the bearing advance wrapped by `% 360`. -/
def tickOrbit (s : CState) (zoom : ℝ) : CState :=
  if s.isPaused then s
  else
    let s1 := checkZoomChange s zoom
    let s2 := { s1 with
      radius := s1.radius + (s1.targetRadius - s1.radius) * radiusSmoothing,
      height := s1.height + (s1.targetHeight - s1.height) * heightSmoothing }
    { s2 with bearing := jsMod (s2.bearing + orbitSpeed) 360 }

/-- Host inputs consumed by one `CinematicOrbit.tick` frame. -/
structure CTickEnv where
  now : ℝ
  refreshDraw : Bool
  hostAtTarget : Option ℝ
  zoom : ℝ

/-- `CinematicOrbit.tick` (part_001 lines 1156-1178).  The boolean result
tells whether the camera was applied this frame; an early `!isRunning`
return leaves the state unchanged and does not reschedule. -/
def tick (s : CState) (env : CTickEnv) : CState × Bool :=
  if !s.isRunning then (s, false)
  else
    let s1 := if env.refreshDraw then updateGroundElevation s env.hostAtTarget else s
    let s2 :=
      if s1.introPhase = IntroPhase.running then tickIntro s1 env.now
      else if s1.introPhase = IntroPhase.complete then tickOrbit s1 env.zoom
      else s1
    ({ s2 with animationFrame := true }, true)

/-- `CinematicOrbit.start` (part_001 lines 1187-1199). -/
def start (s : CState) (zoom : ℝ) : CState :=
  if s.isRunning then s
  else
    let tr := computeRadiusForZoom zoom
    { s with targetRadius := tr, targetHeight := computeHeightForRadius tr,
             lastZoom := zoom, isRunning := true,
             introPhase := IntroPhase.running, animationFrame := true }

/-- `CinematicOrbit.stop` (part_001 lines 1204-1210). -/
def stop (s : CState) : CState := { s with isRunning := false, animationFrame := false }

/-- `CinematicOrbit.pause` (part_001 lines 1215-1217). -/
def pause (s : CState) : CState := { s with isPaused := true }

/-- `CinematicOrbit.resume` (part_001 lines 1222-1224). -/
def resume (s : CState) : CState := { s with isPaused := false }

/-- `CinematicOrbit.dispose` (part_001 lines 1241-1243): just `this.stop()`;
it does not set a terminal flag. -/
def dispose (s : CState) : CState := stop s

end CinematicOrbit

namespace SmoothCameraOrbit

/-- Mutable fields of the `SmoothCameraOrbit` class (src/unnamed/part_001,
lines 1789-1819). -/
structure SState where
  bearing : ℝ
  pitch : ℝ
  currentAltitude : ℝ
  introProgress : ℝ
  groundElevation : ℝ
  introStartTime : Option ℝ
  isRunning : Bool
  isPaused : Bool
  animationFrame : Bool

/-- `this.orbitSpeed = 0.15`. -/
def orbitSpeed : ℝ := 0.15

/-- `this.minTerrainClearance = 80`. -/
def minTerrainClearance : ℝ := 80

/-- `this.targetPitch = 52`. -/
def targetPitch : ℝ := 52

/-- `this.introDuration = 2200`. -/
def introDuration : ℝ := 2200

/-- `SmoothCameraOrbit.getIdealAltitudeForZoom` (part_001 lines 1832-1838). -/
def getIdealAltitudeForZoom (zoom : ℝ) : ℝ :=
  max 100 (min (300 * (1.55 : ℝ) ^ ((14 : ℝ) - zoom)) 3000)

/-- `SmoothCameraOrbit.updateGroundElevation` (part_001 lines 1821-1826):
updates on every non-null sample. -/
def updateGroundElevation (s : SState) (host : Option ℝ) : SState :=
  match host with
  | some e => { s with groundElevation := e }
  | none => s

/-- `SmoothCameraOrbit.easeOutQuart` (part_001 lines 1905-1907). -/
def easeOutQuart (t : ℝ) : ℝ := 1 - (1 - t) ^ 4

/-- Host inputs consumed by one `SmoothCameraOrbit.tick` frame
(`Math.random() < 0.02` draw for the elevation refresh). -/
structure STickEnv where
  now : ℝ
  zoom : ℝ
  refreshDraw : Bool
  hostAtTarget : Option ℝ

/-- `SmoothCameraOrbit.tick` (part_001 lines 1916-1960).  While
`introProgress < 1` the intro branch runs unconditionally — `isPaused` is
only consulted by the steady-orbit branch. -/
def tick (s : SState) (env : STickEnv) : SState × Bool :=
  if !s.isRunning then (s, false)
  else
    let idealAlt := getIdealAltitudeForZoom env.zoom
    let s1 :=
      if s.introProgress < 1 then
        let s0 :=
          if s.introStartTime.getD 0 = 0 then { s with introStartTime := some env.now }
          else s
        let elapsed := env.now - s0.introStartTime.getD 0
        let progress := min (elapsed / introDuration) 1
        let eased := easeOutQuart progress
        let startAlt : ℝ := 1400
        { s0 with
          introProgress := progress,
          pitch := 88 - (88 - targetPitch) * eased,
          currentAltitude := startAlt + (idealAlt - startAlt) * eased,
          bearing := jsMod (s0.bearing + orbitSpeed * 1.5) 360 }
      else if !s.isPaused then
        { s with
          currentAltitude := s.currentAltitude + (idealAlt - s.currentAltitude) * 0.08,
          bearing := jsMod (s.bearing + orbitSpeed) 360,
          pitch := targetPitch }
      else s
    let s2 := if env.refreshDraw then updateGroundElevation s1 env.hostAtTarget else s1
    ({ s2 with animationFrame := true }, true)

/-- `SmoothCameraOrbit.pause` (part_001 lines 1976-1978). -/
def pause (s : SState) : SState := { s with isPaused := true }

/-- `SmoothCameraOrbit.resume` (part_001 lines 1980-1982). -/
def resume (s : SState) : SState := { s with isPaused := false }

end SmoothCameraOrbit

namespace OrbitCamera

/-- Mutable fields of the `OrbitCamera` class (src/unnamed/part_000,
lines 56-76). -/
structure OState where
  bearing : ℝ
  radius : ℝ
  height : ℝ
  groundElevation : ℝ
  isRunning : Bool
  isPaused : Bool
  animationFrame : Bool
  lastTime : Option ℝ

/-- `this.orbitSpeed = 8` (degrees per second). -/
def orbitSpeed : ℝ := 8

/-- `this.minClearance = 80`. -/
def minClearance : ℝ := 80

/-- `OrbitCamera.sampleTerrain` (part_000 lines 85-92): try/catch plus the
`elev != null` test; every failure falls back to the cached elevation. -/
def sampleTerrain (g : ℝ) (host : Except Unit (Option ℝ)) : ℝ :=
  match host with
  | .error _ => g
  | .ok none => g
  | .ok (some v) => v

/-- `OrbitCamera.refreshGroundElevation` (part_000 lines 97-102): updates
the cache only on a strictly positive sample. -/
def refreshGroundElevation (s : OState) (host : Except Unit (Option ℝ)) : OState :=
  let elev := sampleTerrain s.groundElevation host
  if 0 < elev then { s with groundElevation := elev } else s

/-- `OrbitCamera.radiusForZoom` (part_000 lines 107-111). -/
def radiusForZoom (zoom : ℝ) : ℝ :=
  max 100 (min (240 * (1.5 : ℝ) ^ ((14 : ℝ) - zoom)) 2000)

/-- Host inputs consumed by one `OrbitCamera.tick` frame
(`Math.random() < 0.02` draw for the elevation refresh). -/
structure OTickEnv where
  time : ℝ
  refreshDraw : Bool
  hostAtTarget : Except Unit (Option ℝ)
  zoom : ℝ

/-- `OrbitCamera.tick` (part_000 lines 164-193). -/
def tick (s : OState) (env : OTickEnv) : OState × Bool :=
  if !s.isRunning then (s, false)
  else
    let last := s.lastTime.getD env.time
    let dt := min ((env.time - last) / 1000) 0.1
    let s1 := { s with lastTime := some env.time }
    let s2 := if env.refreshDraw then refreshGroundElevation s1 env.hostAtTarget else s1
    let radius' := s2.radius + (radiusForZoom env.zoom - s2.radius) * 0.03
    let s3 := { s2 with radius := radius', height := radius' * 0.65 }
    let s4 :=
      if s3.isPaused then s3
      else { s3 with bearing := jsMod (s3.bearing + orbitSpeed * dt) 360 }
    ({ s4 with animationFrame := true }, true)

/-- `OrbitCamera.pause` (part_000 lines 218-220). -/
def pause (s : OState) : OState := { s with isPaused := true }

/-- `OrbitCamera.resume` (part_000 lines 222-225): clears the delta-time
anchor. -/
def resume (s : OState) : OState := { s with isPaused := false, lastTime := none }

end OrbitCamera

namespace RefugeModal

/-- A maplibre `MercatorCoordinate`. -/
structure MercCoord where
  x : ℝ
  y : ℝ
  z : ℝ

/-- `computeOrbitDistance` (RefugeModal.jsx lines 157-160), with
`baseDistance` an explicit argument (default `420` at the call sites that
omit it). -/
def computeOrbitDistance (zoomLevel baseDistance : ℝ) : ℝ :=
  min (max (baseDistance * (1.2 : ℝ) ^ ((14 : ℝ) - zoomLevel)) 180) 1400

/-- `buildCameraPosition` (RefugeModal.jsx lines 162-183).  The host's
projection of the fixed `selectedLocation` at a given elevation is passed in
as `fromLngLat`, and `metersToMercator` is the host's
`meterInMercatorCoordinateUnits()` scale.  `queryElev` is the host elevation
response at the target; the JS `|| 0` maps a null (and a zero) response to
`0`.  Note that no terrain sample is taken at the camera's own horizontal
position and no clamp against it is applied. -/
def buildCameraPosition (fromLngLat : ℝ → MercCoord) (metersToMercator : ℝ)
    (queryElev : Option ℝ) (bearing pitch distance minAltitude : ℝ) :
    MercCoord × MercCoord :=
  let elevation := queryElev.getD 0 + minAltitude
  let targetCoord := fromLngLat elevation
  let pitchRad := toRad pitch
  let bearingRad := toRad bearing
  let horizontalDistance := max 60 (distance * Real.cos pitchRad)
  let verticalDistance := distance * Real.sin pitchRad
  let offsetX := Real.sin bearingRad * horizontalDistance * metersToMercator
  let offsetY := Real.cos bearingRad * horizontalDistance * metersToMercator
  (⟨targetCoord.x + offsetX, targetCoord.y + offsetY,
    targetCoord.z + verticalDistance * metersToMercator⟩,
   targetCoord)

/-- The bearing handed to the host in the `orbit` frame loop
(RefugeModal.jsx line 233): `(mapInstance.getBearing() + 0.15) % 360`,
passed to `mapInstance.setBearing`. -/
def nextBearing (hostBearing : ℝ) : ℝ := jsMod (hostBearing + 0.15) 360

end RefugeModal

/-- Test fixture: a `CinematicOrbit` state as it stands after `start()` has
run and the intro has completed (running, unpaused, frame scheduled). -/
def cinematicRunningState : CinematicOrbit.CState :=
  { bearing := 0, radius := 800, height := 400, targetRadius := 300,
    targetHeight := 200, groundElevation := 0, lastZoom := 14,
    isRunning := true, isPaused := false, animationFrame := true,
    introPhase := IntroPhase.complete, introStartTime := none }

/-- Test fixture: a live `OrbitController` in steady orbit. -/
def ocLiveState : OrbitController.State :=
  { disposed := false, phase := OCPhase.orbit, bearing := 45, radius := 300,
    height := 180, groundElevation := 1200, lastTimestamp := none,
    isPaused := false, animationFrame := true }

/-- Test fixture: one frame's worth of host inputs for `OrbitController`. -/
def ocTickEnv : OrbitController.TickEnv :=
  { timestamp := 16, refreshDraw := false, hostAtTarget := Except.ok none,
    zoom := 14, hostAtCam := Except.ok none }

/-- Test fixture: a running `OrbitCamera` (part_000). -/
def oLiveState : OrbitCamera.OState :=
  { bearing := 10, radius := 250, height := 162.5, groundElevation := 900,
    isRunning := true, isPaused := false, animationFrame := true, lastTime := none }

/-- Test fixture: one frame's worth of host inputs for `OrbitCamera`. -/
def oTickEnv : OrbitCamera.OTickEnv :=
  { time := 16, refreshDraw := false, hostAtTarget := Except.ok none, zoom := 14 }

/-- Test fixture: a terrain profile that has elevation `0` on the mercator
row `y = 0` (where the orbit target sits) and a 10000 m ridge everywhere
else. -/
def ridgeTerrain (p : ℝ × ℝ) : ℝ := if p.2 = 0 then 0 else 10000

/-- Test fixture: a projection placing the orbit target at mercator
`(0, 0)` with `z` equal to the elevation (meters-to-mercator scale `1`). -/
def flatProj (e : ℝ) : RefugeModal.MercCoord := ⟨0, 0, e⟩

/-- Test fixture: a freshly constructed `OrbitController` (constructor
defaults, terrain elevation not yet known). -/
def ocFreshState : OrbitController.State :=
  { disposed := false, phase := OCPhase.idle, bearing := 0, radius := 300,
    height := 200, groundElevation := 0, lastTimestamp := none,
    isPaused := false, animationFrame := false }

/-- Test fixture: a `start()` environment whose host never returns terrain
during the wait window, never disposes the controller, and fires `moveend`
after the intro transition. -/
def ocStartEnv : OrbitController.StartEnv :=
  { hostDuringWait := fun _ => Except.ok none, disposedDuringWait := fun _ => false,
    disposedAfterWait := false, hostBearing := 120, moveEndFires := true,
    disposedAtMoveEnd := false, moveEndBearing := 163, hostAtMoveEnd := Except.ok none }

/-- Test fixture: one frame's worth of host inputs for `CinematicOrbit`. -/
def cTickEnvFix : CinematicOrbit.CTickEnv :=
  { now := 500, refreshDraw := false, hostAtTarget := none, zoom := 14 }

/-- Test fixture: a `SmoothCameraOrbit` right after `start()`, intro not yet
finished. -/
def smIntroState : SmoothCameraOrbit.SState :=
  { bearing := 0, pitch := 88, currentAltitude := 1200, introProgress := 0,
    groundElevation := 0, introStartTime := none, isRunning := true,
    isPaused := false, animationFrame := true }

/-- Test fixture: one frame's worth of host inputs for `SmoothCameraOrbit`. -/
def smTickEnvFix : SmoothCameraOrbit.STickEnv :=
  { now := 100, zoom := 14, refreshDraw := false, hostAtTarget := none }

/-!  Theorems.  First the generic facts about the JavaScript remainder
operator, then helper lemmas about the frame steps, then one theorem (plus
counterexample/witness where needed) per claim. -/

theorem jsTrunc_of_nonneg {x : ℝ} (h : 0 ≤ x) : jsTrunc x = ⌊x⌋ := if_pos h

theorem jsMod_eq_fract_mul {a b : ℝ} (ha : 0 ≤ a) (hb : 0 < b) :
    jsMod a b = b * Int.fract (a / b) := by
  rw [jsMod, jsTrunc_of_nonneg (div_nonneg ha hb.le), Int.fract]
  field_simp

theorem jsMod_mem_Ico {a b : ℝ} (ha : 0 ≤ a) (hb : 0 < b) :
    jsMod a b ∈ Set.Ico 0 b := by
  rw [jsMod_eq_fract_mul ha hb]
  constructor
  · exact mul_nonneg hb.le (Int.fract_nonneg _)
  · calc b * Int.fract (a / b) < b * 1 :=
        (mul_lt_mul_left hb).2 (Int.fract_lt_one _)
    _ = b := mul_one b

theorem jsMod_eq_self {a b : ℝ} (ha : 0 ≤ a) (hab : a < b) : jsMod a b = a := by
  have hb : 0 < b := lt_of_le_of_lt ha hab
  have h01 : a / b < 1 := (div_lt_one hb).2 hab
  have h0 : (0 : ℝ) ≤ a / b := div_nonneg ha hb.le
  have : ⌊a / b⌋ = 0 := by
    rw [Int.floor_eq_zero_iff]
    exact ⟨h0, h01⟩
  rw [jsMod, jsTrunc_of_nonneg h0, this]
  simp

/-- C3 counterexample: `CinematicOrbit.getTerrainElevation` has no
try/catch, so when the underlying host elevation query throws, the
terrain-sampling operation itself throws instead of returning the cached
`groundElevation` — refuting "the terrain-sampling operation never throws"
for this variant. -/
theorem C3_counterexample :
    CinematicOrbit.getTerrainElevation (Except.error ()) (5 : ℝ) = Except.error () := rfl

/-- C3 (amended): the `OrbitController.queryElevation` and
`OrbitCamera.sampleTerrain` samplers are total — a host query that throws or
returns null/undefined yields the cached `groundElevation`, and a numeric
sample is passed through (for a live controller) — while
`CinematicOrbit.getTerrainElevation` only falls back to the cache on a
null/undefined response (a thrown host query propagates, see the
counterexample). -/
theorem C3_sampler_fallback (s : OrbitController.State) (g v : ℝ)
    (hlive : s.disposed = false) :
    OrbitController.queryElevation s (Except.error ()) = s.groundElevation
    ∧ OrbitController.queryElevation s (Except.ok none) = s.groundElevation
    ∧ OrbitController.queryElevation s (Except.ok (some v)) = v
    ∧ OrbitCamera.sampleTerrain g (Except.error ()) = g
    ∧ OrbitCamera.sampleTerrain g (Except.ok none) = g
    ∧ OrbitCamera.sampleTerrain g (Except.ok (some v)) = v
    ∧ CinematicOrbit.getTerrainElevation (Except.ok none) g = Except.ok g := by
  refine ⟨?_, ?_, ?_, rfl, rfl, rfl, rfl⟩ <;>
    simp [OrbitController.queryElevation, OrbitController.queryElevationRaw, hlive]

/-- C3 witness: the fallback contract evaluated on a concrete live state. -/
theorem C3_witness :
    ({ disposed := false, phase := OCPhase.orbit, bearing := 0, radius := 300,
       height := 200, groundElevation := 7, lastTimestamp := none,
       isPaused := false, animationFrame := true } : OrbitController.State).disposed = false
    ∧ OrbitController.queryElevation
        { disposed := false, phase := OCPhase.orbit, bearing := 0, radius := 300,
          height := 200, groundElevation := 7, lastTimestamp := none,
          isPaused := false, animationFrame := true } (Except.error ()) = 7 := by
  refine ⟨rfl, ?_⟩
  exact (C3_sampler_fallback _ 7 3 rfl).1

/-- C5 counterexample: in `CinematicOrbit`, `dispose()` only clears
`isRunning` and the pending frame, so a subsequent `start()` passes the
`if (this.isRunning) return` guard and restarts the animation loop (running
again, a frame scheduled again, intro phase re-armed) — refuting "start()
after dispose() does not restart the animation loop". -/
theorem C5_counterexample :
    (CinematicOrbit.start (CinematicOrbit.dispose cinematicRunningState) 14).isRunning = true
    ∧ (CinematicOrbit.start (CinematicOrbit.dispose cinematicRunningState) 14).animationFrame = true
    ∧ (CinematicOrbit.start (CinematicOrbit.dispose cinematicRunningState) 14).introPhase
        = IntroPhase.running := by
  refine ⟨?_, ?_, ?_⟩ <;> rfl

/-- C5 (amended): for `OrbitController`, `dispose()` is idempotent and
terminal — a later `start()` returns immediately, a later `tick` neither
changes state, applies a pose, nor reschedules a frame, and `pause()` /
`resume()` leave the controller disposed with no pending frame (they merely
toggle the inert `isPaused` flag); none of these throws (all are total).
For `CinematicOrbit`, `dispose()` is idempotent and a disposed tick is dead,
but `start()` after `dispose()` restarts the loop (see counterexample). -/
theorem C5_dispose_terminal (s : OrbitController.State) (env : OrbitController.TickEnv)
    (senv : OrbitController.StartEnv) (c : CinematicOrbit.CState)
    (cenv : CinematicOrbit.CTickEnv) :
    OrbitController.dispose (OrbitController.dispose s) = OrbitController.dispose s
    ∧ OrbitController.start (OrbitController.dispose s) senv = OrbitController.dispose s
    ∧ OrbitController.tick (OrbitController.dispose s) env = (OrbitController.dispose s, false)
    ∧ (OrbitController.pause (OrbitController.dispose s)).disposed = true
    ∧ (OrbitController.pause (OrbitController.dispose s)).animationFrame = false
    ∧ (OrbitController.pause (OrbitController.dispose s)).phase = OCPhase.idle
    ∧ (OrbitController.resume (OrbitController.dispose s)).disposed = true
    ∧ (OrbitController.resume (OrbitController.dispose s)).animationFrame = false
    ∧ CinematicOrbit.dispose (CinematicOrbit.dispose c) = CinematicOrbit.dispose c
    ∧ CinematicOrbit.tick (CinematicOrbit.dispose c) cenv = (CinematicOrbit.dispose c, false) := by
  refine ⟨rfl, ?_, ?_, rfl, rfl, rfl, rfl, rfl, rfl, ?_⟩
  · simp [OrbitController.start, OrbitController.dispose]
  · simp [OrbitController.tick, OrbitController.dispose]
  · simp [CinematicOrbit.tick, CinematicOrbit.dispose, CinematicOrbit.stop]

/-- C9 counterexample: `CinematicOrbit.updateGroundElevation` overwrites the
cached ground elevation with *any* non-null sample — here a sample of `0`
replaces the cached value `5` — refuting "the cached groundElevation field
is updated only when the sample value is strictly greater than zero". -/
theorem C9_counterexample :
    (CinematicOrbit.updateGroundElevation
      { cinematicRunningState with groundElevation := 5 } (some 0)).groundElevation = 0
    ∧ (0 : ℝ) ≠ 5 := ⟨rfl, by norm_num⟩

/-- C9 (amended): `OrbitController.refreshGroundElevation` and
`OrbitCamera.refreshGroundElevation` update the cache exactly when the
(fallback-resolved) sample is strictly positive, leaving it unchanged on a
zero, negative or null sample; `CinematicOrbit.updateGroundElevation`
instead stores every non-null sample, including zero and negative ones (only
a null sample leaves the cache unchanged). -/
theorem C9_ground_guard (s : OrbitController.State) (o : OrbitCamera.OState)
    (c : CinematicOrbit.CState) (hostA hostB : Except Unit (Option ℝ)) (h : Option ℝ) :
    (OrbitController.refreshGroundElevation s hostA).groundElevation
      = (if 0 < OrbitController.queryElevation s hostA
         then OrbitController.queryElevation s hostA else s.groundElevation)
    ∧ (OrbitCamera.refreshGroundElevation o hostB).groundElevation
      = (if 0 < OrbitCamera.sampleTerrain o.groundElevation hostB
         then OrbitCamera.sampleTerrain o.groundElevation hostB else o.groundElevation)
    ∧ (CinematicOrbit.updateGroundElevation c h).groundElevation = h.getD c.groundElevation := by
  refine ⟨?_, ?_, ?_⟩
  · rw [OrbitController.refreshGroundElevation]
    split <;> rfl
  · rw [OrbitCamera.refreshGroundElevation]
    split <;> rfl
  · cases h <;> rfl

theorem OrbitController.pause_iter (s : OrbitController.State) :
    ∀ n : ℕ, 0 < n → OrbitController.pause^[n] s = OrbitController.pause s := by
  intro n hn
  induction n with
  | zero => exact absurd hn (by omega)
  | succ n ih =>
    rcases Nat.eq_zero_or_pos n with h0 | hpos
    · subst h0
      simp
    · rw [Function.iterate_succ_apply', ih hpos]
      rfl

theorem min_zero_dt : min (0 : ℝ) 0.1 = 0 :=
  min_eq_left (by norm_num)

/-- C6: the first frame after `resume()` advances the bearing by `orbitSpeed
* dt` with `dt = 0` — i.e. not at all, well below one frame interval —
because `resume()` clears the delta-time anchor and `tick` then re-anchors
it to the frame's own timestamp.  Holds for `OrbitController` and for
`OrbitCamera` (part_000) alike. -/
theorem C6_resume_no_jump (s : OrbitController.State) (env : OrbitController.TickEnv)
    (hd : s.disposed = false) (hp : s.phase = OCPhase.orbit)
    (hb0 : 0 ≤ s.bearing) (hb1 : s.bearing < 360)
    (o : OrbitCamera.OState) (oenv : OrbitCamera.OTickEnv)
    (ho : o.isRunning = true) (hob0 : 0 ≤ o.bearing) (hob1 : o.bearing < 360) :
    (OrbitController.tick (OrbitController.resume s) env).1.bearing = s.bearing
    ∧ (OrbitCamera.tick (OrbitCamera.resume o) oenv).1.bearing = o.bearing := by
  constructor
  · rw [OrbitController.tick]
    rw [if_neg (by simp [OrbitController.resume, hd, hp])]
    cases henv : env.refreshDraw <;>
      simp [OrbitController.resume, OrbitController.refreshGroundElevation, henv,
        apply_ite, min_zero_dt, jsMod_eq_self hb0 hb1]
  · rw [OrbitCamera.tick]
    rw [if_neg (by simp [OrbitCamera.resume, ho])]
    cases henv : oenv.refreshDraw <;>
      simp [OrbitCamera.resume, OrbitCamera.refreshGroundElevation, henv,
        apply_ite, min_zero_dt, jsMod_eq_self hob0 hob1]

/-- Closed form of `OrbitController.tick` on a live, orbiting controller. -/
theorem OrbitController.tick_live_eq (s : OrbitController.State)
    (env : OrbitController.TickEnv) (hd : s.disposed = false)
    (hp : s.phase = OCPhase.orbit) :
    OrbitController.tick s env =
      (let dt := min ((env.timestamp - s.lastTimestamp.getD env.timestamp) / 1000) 0.1
       let g := if env.refreshDraw = true ∧
                    0 < OrbitController.queryElevation s env.hostAtTarget
                then OrbitController.queryElevation s env.hostAtTarget
                else s.groundElevation
       let radius := s.radius +
         (OrbitController.radiusForZoom env.zoom - s.radius) * min (dt * 2) 0.1
       let bearing := if s.isPaused then s.bearing
                      else jsMod (s.bearing + OrbitController.orbitSpeed * dt) 360
       ({ disposed := s.disposed, phase := s.phase, bearing := bearing,
          radius := radius, height := OrbitController.heightForRadius radius,
          groundElevation := g, lastTimestamp := some env.timestamp,
          isPaused := s.isPaused, animationFrame := true }, true)) := by
  rw [OrbitController.tick, if_neg (by simp [hd, hp])]
  cases henv : env.refreshDraw <;>
    cases hps : s.isPaused <;>
      simp [OrbitController.refreshGroundElevation, OrbitController.queryElevation,
        henv, hps, hd, apply_ite]

/-- Closed form of `OrbitCamera.tick` on a running controller. -/
theorem OrbitCamera.tick_run_eq (o : OrbitCamera.OState)
    (env : OrbitCamera.OTickEnv) (ho : o.isRunning = true) :
    OrbitCamera.tick o env =
      (let dt := min ((env.time - o.lastTime.getD env.time) / 1000) 0.1
       let g := if env.refreshDraw = true ∧
                    0 < OrbitCamera.sampleTerrain o.groundElevation env.hostAtTarget
                then OrbitCamera.sampleTerrain o.groundElevation env.hostAtTarget
                else o.groundElevation
       let radius := o.radius + (OrbitCamera.radiusForZoom env.zoom - o.radius) * 0.03
       let bearing := if o.isPaused then o.bearing
                      else jsMod (o.bearing + OrbitCamera.orbitSpeed * dt) 360
       ({ bearing := bearing, radius := radius, height := radius * 0.65,
          groundElevation := g, isRunning := o.isRunning, isPaused := o.isPaused,
          animationFrame := true, lastTime := some env.time }, true)) := by
  rw [OrbitCamera.tick]
  rw [if_neg (by simp [ho])]
  cases henv : env.refreshDraw <;>
    cases hps : o.isPaused <;>
      simp [OrbitCamera.refreshGroundElevation, henv, hps, apply_ite]

/-- C7: during a paused steady orbit, every frame still resolves and applies
the camera pose (the applied flag is true, and the zoom-driven radius/height
smoothing and the probabilistic terrain refresh produce exactly the values
an unpaused frame would produce), but the bearing does not change; and
`pause()` iterated any positive number of times equals a single `pause()`.
Shown for `OrbitController` and for `OrbitCamera` (part_000). -/
theorem C7_paused_frame (s : OrbitController.State) (env : OrbitController.TickEnv)
    (hd : s.disposed = false) (hp : s.phase = OCPhase.orbit)
    (o : OrbitCamera.OState) (oenv : OrbitCamera.OTickEnv) (ho : o.isRunning = true)
    (n : ℕ) (hn : 0 < n) :
    (OrbitController.tick (OrbitController.pause s) env).2 = true
    ∧ (OrbitController.tick (OrbitController.pause s) env).1.bearing = s.bearing
    ∧ (OrbitController.tick (OrbitController.pause s) env).1.radius
        = (OrbitController.tick s env).1.radius
    ∧ (OrbitController.tick (OrbitController.pause s) env).1.height
        = (OrbitController.tick s env).1.height
    ∧ (OrbitController.tick (OrbitController.pause s) env).1.groundElevation
        = (OrbitController.tick s env).1.groundElevation
    ∧ OrbitController.pause^[n] s = OrbitController.pause s
    ∧ (OrbitCamera.tick (OrbitCamera.pause o) oenv).2 = true
    ∧ (OrbitCamera.tick (OrbitCamera.pause o) oenv).1.bearing = o.bearing := by
  have hdp : (OrbitController.pause s).disposed = false := hd
  have hpp : (OrbitController.pause s).phase = OCPhase.orbit := hp
  have hop : (OrbitCamera.pause o).isRunning = true := ho
  rw [OrbitController.tick_live_eq s env hd hp,
    OrbitController.tick_live_eq (OrbitController.pause s) env hdp hpp,
    OrbitCamera.tick_run_eq (OrbitCamera.pause o) oenv hop]
  refine ⟨rfl, ?_, rfl, rfl, ?_, OrbitController.pause_iter s n hn, rfl, ?_⟩
  · simp [OrbitController.pause]
  · simp [OrbitController.pause, OrbitController.queryElevation]
  · simp [OrbitCamera.pause]

/-- C6 witness: the resume-then-tick bearing freeze evaluated on a concrete
live state. -/
theorem C6_witness :
    ocLiveState.disposed = false ∧ ocLiveState.phase = OCPhase.orbit
    ∧ (0 : ℝ) ≤ ocLiveState.bearing ∧ ocLiveState.bearing < 360
    ∧ oLiveState.isRunning = true
    ∧ (0 : ℝ) ≤ oLiveState.bearing ∧ oLiveState.bearing < 360
    ∧ (OrbitController.tick (OrbitController.resume ocLiveState) ocTickEnv).1.bearing
        = ocLiveState.bearing :=
  ⟨rfl, rfl, by norm_num [ocLiveState], by norm_num [ocLiveState], rfl,
   by norm_num [oLiveState], by norm_num [oLiveState],
   (C6_resume_no_jump ocLiveState ocTickEnv rfl rfl (by norm_num [ocLiveState])
     (by norm_num [ocLiveState]) oLiveState oTickEnv rfl (by norm_num [oLiveState])
     (by norm_num [oLiveState])).1⟩

/-- C7 witness: the paused-frame behaviour evaluated on a concrete live
state, with `pause()` iterated twice. -/
theorem C7_witness :
    ocLiveState.disposed = false ∧ ocLiveState.phase = OCPhase.orbit
    ∧ oLiveState.isRunning = true ∧ (0 : ℕ) < 2
    ∧ (OrbitController.tick (OrbitController.pause ocLiveState) ocTickEnv).1.bearing
        = ocLiveState.bearing
    ∧ OrbitController.pause^[2] ocLiveState = OrbitController.pause ocLiveState :=
  ⟨rfl, rfl, rfl, by norm_num,
   (C7_paused_frame ocLiveState ocTickEnv rfl rfl oLiveState oTickEnv rfl 2
     (by norm_num)).2.1,
   (C7_paused_frame ocLiveState ocTickEnv rfl rfl oLiveState oTickEnv rfl 2
     (by norm_num)).2.2.2.2.2.1⟩

/-- C1 counterexample: the `RefugeModal.buildCameraPosition` pose resolver
never samples terrain at the camera's own horizontal position — it only
offsets from the elevation at the *target*.  With the target on flat ground
(sampled elevation 0), safety margin 80, pitch 0, bearing 0 and distance 60,
the camera ends up at altitude 80 over a point whose terrain elevation is
10000, strictly below terrain-at-camera plus the clearance constant —
refuting the claim for this pose resolver. -/
theorem C1_counterexample :
    (RefugeModal.buildCameraPosition flatProj 1 (some (ridgeTerrain (0, 0))) 0 0 60 80).1.z
      < ridgeTerrain
          ((RefugeModal.buildCameraPosition flatProj 1 (some (ridgeTerrain (0, 0))) 0 0 60 80).1.x,
           (RefugeModal.buildCameraPosition flatProj 1 (some (ridgeTerrain (0, 0))) 0 0 60 80).1.y)
      + 80 := by
  have h0 : toRad 0 = 0 := by simp [toRad]
  simp only [RefugeModal.buildCameraPosition, flatProj, ridgeTerrain, h0,
    Real.sin_zero, Real.cos_zero, Option.getD_some]
  norm_num

/-- C1 (amended): the pose resolvers that do clamp —
`OrbitController.computeCameraPosition` and
`CinematicOrbit.computeCameraPosition` — always resolve a camera altitude at
least the sampled terrain elevation at the camera's horizontal position
(null/unavailable samples falling back to the cached ground elevation) plus
the controller's minimum clearance constant, for every state (hence every
terrain profile and zoom history), with the clamp applied inside pose
resolution and not to the smoothed radius/height variables; the
`RefugeModal.buildCameraPosition` resolver gives no such guarantee (see
counterexample). -/
theorem C1_clamped_clearance (s : OrbitController.State) (c : CinematicOrbit.CState)
    (tlng tlat clng clat t : ℝ) (hostA hostC : Except Unit (Option ℝ))
    (ht : CinematicOrbit.getTerrainElevation hostC c.groundElevation = Except.ok t) :
    (OrbitController.computeCameraPosition s tlng tlat hostA).camZ
      ≥ OrbitController.queryElevation s hostA + OrbitController.minClearance
    ∧ ∀ pose : CamPose,
        CinematicOrbit.computeCameraPosition c clng clat hostC = Except.ok pose →
        pose.camZ ≥ t + CinematicOrbit.minClearance := by
  constructor
  · show OrbitController.queryElevation s hostA + OrbitController.minClearance ≤ _
    simp only [OrbitController.computeCameraPosition]
    exact le_trans
      (add_le_add_right (le_max_left (OrbitController.queryElevation s hostA)
        s.groundElevation) OrbitController.minClearance)
      (le_max_right _ _)
  · intro pose hpose
    simp only [CinematicOrbit.computeCameraPosition, ht] at hpose
    rw [Except.ok.injEq] at hpose
    rw [← hpose]
    exact le_max_right _ _

/-- C1 witness: the clamp evaluated at a concrete state and a concrete
successful sample. -/
theorem C1_witness :
    CinematicOrbit.getTerrainElevation (Except.ok (some 3))
        cinematicRunningState.groundElevation = Except.ok 3
    ∧ (OrbitController.computeCameraPosition ocLiveState 6.4 45.2 (Except.ok none)).camZ
        ≥ OrbitController.queryElevation ocLiveState (Except.ok none)
          + OrbitController.minClearance :=
  ⟨rfl, (C1_clamped_clearance ocLiveState cinematicRunningState 6.4 45.2 6.4 45.2 3
    (Except.ok none) (Except.ok (some 3)) rfl).1⟩

theorem CinematicOrbit.easeOutQuart_one : CinematicOrbit.easeOutQuart 1 = 1 := by
  norm_num [CinematicOrbit.easeOutQuart]

theorem CinematicOrbit.easeSpiral_one : CinematicOrbit.easeSpiral 1 = 1 := by
  rw [CinematicOrbit.easeSpiral, if_neg (by norm_num), if_neg (by norm_num)]
  norm_num [CinematicOrbit.easeOutQuart]

theorem jsMod_540_360 : jsMod 540 360 = 180 := by
  have hfl : ⌊(540 : ℝ) / 360⌋ = 1 := by
    rw [Int.floor_eq_iff]
    constructor <;> norm_num
  rw [jsMod, jsTrunc, if_pos (by norm_num), hfl]
  norm_num

/-- When a `CinematicOrbit` intro frame completes (raw progress has reached
1), the bearing — which accumulated up to `easeSpiral 1 * 540 = 540` degrees
during the multi-revolution intro — is normalized by `% 360` to exactly
`180`. -/
theorem CinematicOrbit.tickIntro_complete_bearing (c : CinematicOrbit.CState) (now : ℝ)
    (hru : c.introPhase = IntroPhase.running)
    (hc : (CinematicOrbit.tickIntro c now).introPhase = IntroPhase.complete) :
    (CinematicOrbit.tickIntro c now).bearing = 180 := by
  by_cases h0 : c.introStartTime.getD 0 = 0 <;>
  · simp only [CinematicOrbit.tickIntro, h0, if_true, if_false, Option.getD_some] at hc ⊢
    set raw := min ((now - _) / CinematicOrbit.introDuration) 1 with hraw
    by_cases h1 : (1 : ℝ) ≤ raw
    · have hone : raw = 1 := le_antisymm (min_le_right _ _) h1
      simp only [hone, CinematicOrbit.easeSpiral_one, one_mul]
      rw [if_pos le_rfl]
      exact jsMod_540_360
    · simp only [if_neg h1] at hc
      simp [hru] at hc

theorem CinematicOrbit.tickOrbit_bearing (c : CinematicOrbit.CState) (zoom : ℝ) :
    (CinematicOrbit.tickOrbit c zoom).bearing =
      if c.isPaused then c.bearing
      else jsMod (c.bearing + CinematicOrbit.orbitSpeed) 360 := by
  rw [CinematicOrbit.tickOrbit]
  cases hps : c.isPaused <;>
    simp [hps, CinematicOrbit.checkZoomChange, apply_ite]

/-- C2 counterexample: JavaScript's `%` keeps the dividend's sign, so the
bearing handed to `mapInstance.setBearing` by the RefugeModal orbit loop,
`(getBearing() + 0.15) % 360`, is negative when the host reports a negative
bearing (maplibre bearings live in `(-180, 180]`): at host bearing `-170`
the reported value is `-169.85`, outside `[0, 360)`. -/
theorem C2_counterexample :
    ¬(0 ≤ RefugeModal.nextBearing (-170)
      ∧ RefugeModal.nextBearing (-170) < 360) := by
  have htr : jsTrunc (((-170 : ℝ) + 0.15) / 360) = 0 := by
    rw [jsTrunc, if_neg (by norm_num)]
    rw [Int.ceil_eq_zero_iff]
    constructor <;> norm_num
  have : RefugeModal.nextBearing (-170) = -169.85 := by
    rw [RefugeModal.nextBearing, jsMod, htr]
    norm_num
  rw [this]
  intro h
  linarith [h.1]

/-- C2 (amended): whenever the accumulating bearing is nonnegative the
`% 360` wrap does land in `[0, 360)`: an `OrbitController` steady-orbit
frame whose incoming bearing is in `[0, 360)` (and whose timestamp does not
run backwards) produces a bearing in `[0, 360)`; a `CinematicOrbit`
steady-orbit step preserves `[0, 360)`; the multi-revolution intro, which
accumulates up to 540 degrees internally, normalizes the bearing to `180 ∈
[0, 360)` on the frame that completes it; and the RefugeModal loop's
`setBearing` argument is in `[0, 360)` for nonnegative host bearings.  For
negative host bearings the claim fails (see counterexample). -/
theorem C2_bearing_normalized (s : OrbitController.State) (env : OrbitController.TickEnv)
    (hd : s.disposed = false) (hp : s.phase = OCPhase.orbit)
    (hb : s.bearing ∈ Set.Ico (0 : ℝ) 360)
    (hts : ∀ l, s.lastTimestamp = some l → l ≤ env.timestamp)
    (c : CinematicOrbit.CState) (zoom : ℝ) (hcb : c.bearing ∈ Set.Ico (0 : ℝ) 360)
    (c2 : CinematicOrbit.CState) (now : ℝ) (hru : c2.introPhase = IntroPhase.running)
    (b : ℝ) (hbpos : 0 ≤ b) :
    (OrbitController.tick s env).1.bearing ∈ Set.Ico (0 : ℝ) 360
    ∧ (CinematicOrbit.tickOrbit c zoom).bearing ∈ Set.Ico (0 : ℝ) 360
    ∧ ((CinematicOrbit.tickIntro c2 now).introPhase = IntroPhase.complete →
        (CinematicOrbit.tickIntro c2 now).bearing ∈ Set.Ico (0 : ℝ) 360)
    ∧ RefugeModal.nextBearing b ∈ Set.Ico (0 : ℝ) 360 := by
  have hdt : 0 ≤ min ((env.timestamp - s.lastTimestamp.getD env.timestamp) / 1000) 0.1 := by
    cases hl : s.lastTimestamp with
    | none =>
      simp only [Option.getD_none, sub_self, zero_div]
      exact le_min le_rfl (by norm_num)
    | some l =>
      exact le_min (div_nonneg (sub_nonneg.2 (hts l hl)) (by norm_num)) (by norm_num)
  refine ⟨?_, ?_, ?_, ?_⟩
  · rw [OrbitController.tick_live_eq s env hd hp]
    cases hps : s.isPaused <;> simp only [hps, if_true, if_false, Bool.false_eq_true]
    · exact jsMod_mem_Ico
        (add_nonneg hb.1 (mul_nonneg (by norm_num [OrbitController.orbitSpeed]) hdt))
        (by norm_num)
    · exact hb
  · rw [CinematicOrbit.tickOrbit_bearing]
    cases hps : c.isPaused <;> simp only [hps, if_true, if_false, Bool.false_eq_true]
    · exact jsMod_mem_Ico
        (add_nonneg hcb.1 (by norm_num [CinematicOrbit.orbitSpeed])) (by norm_num)
    · exact hcb
  · intro hc
    rw [CinematicOrbit.tickIntro_complete_bearing c2 now hru hc]
    constructor <;> norm_num
  · exact jsMod_mem_Ico (add_nonneg hbpos (by norm_num)) (by norm_num)

/-- C2 witness: the normalization evaluated on concrete states. -/
theorem C2_witness :
    ocLiveState.disposed = false ∧ ocLiveState.phase = OCPhase.orbit
    ∧ ocLiveState.bearing ∈ Set.Ico (0 : ℝ) 360
    ∧ cinematicRunningState.bearing ∈ Set.Ico (0 : ℝ) 360
    ∧ (OrbitController.tick ocLiveState ocTickEnv).1.bearing ∈ Set.Ico (0 : ℝ) 360
    ∧ RefugeModal.nextBearing 350 ∈ Set.Ico (0 : ℝ) 360 := by
  have h := C2_bearing_normalized ocLiveState ocTickEnv rfl rfl
    (by constructor <;> norm_num [ocLiveState])
    (by intro l hl; simp [ocLiveState] at hl)
    cinematicRunningState 14 (by constructor <;> norm_num [cinematicRunningState])
    { cinematicRunningState with introPhase := IntroPhase.running } 0 rfl
    350 (by norm_num)
  exact ⟨rfl, rfl, by constructor <;> norm_num [ocLiveState],
    by constructor <;> norm_num [cinematicRunningState], h.1, h.2.2.2⟩

theorem OrbitController.waitAux_allFail (host : ℕ → Except Unit (Option ℝ))
    (disposedAt : ℕ → Bool) (g : ℝ)
    (helev : ∀ j, OrbitController.queryElevationRaw g (host j) ≤ 0)
    (hdis : ∀ j, disposedAt j = false) :
    ∀ n i, 30 ≤ i + n → i ≤ 30 →
      OrbitController.waitForTerrainAux host disposedAt g 3000 100 n i = (0, false, 30) := by
  intro n
  induction n with
  | zero =>
    intro i h30 hle
    have : i = 30 := by omega
    subst this
    rfl
  | succ n ih =>
    intro i h30 hle
    rw [OrbitController.waitForTerrainAux]
    by_cases hi : i < 30
    · have hir : (i : ℝ) < 30 := by exact_mod_cast hi
      rw [if_pos (by nlinarith), hdis i]
      simp only [Bool.false_eq_true, if_false, if_neg (not_lt.2 (helev i))]
      exact ih (i + 1) (by omega) (by omega)
    · have : i = 30 := by omega
      subst this
      rw [if_neg (by push_cast; norm_num)]

theorem OrbitController.waitAux_poll_bound (host : ℕ → Except Unit (Option ℝ))
    (disposedAt : ℕ → Bool) (g : ℝ) :
    ∀ n i, i ≤ 30 →
      (OrbitController.waitForTerrainAux host disposedAt g 3000 100 n i).2.2 ≤ 30 := by
  intro n
  induction n with
  | zero => intro i hle; exact hle
  | succ n ih =>
    intro i hle
    rw [OrbitController.waitForTerrainAux]
    by_cases htime : (i : ℝ) * 100 < 3000
    · have hi : i < 30 := by
        by_contra hcon
        push_neg at hcon
        have : (30 : ℝ) * 100 ≤ (i : ℝ) * 100 := by
          have : (30 : ℝ) ≤ (i : ℝ) := by exact_mod_cast hcon
          nlinarith
        nlinarith
      rw [if_pos htime]
      cases hd : disposedAt i
      · simp only [Bool.false_eq_true, if_false]
        split
        · exact show i + 1 ≤ 30 by omega
        · exact ih (i + 1) (by omega)
      · simp only [if_true]
        exact hle
    · rw [if_neg htime]
      exact hle

/-- C4: the pre-start terrain wait always finishes within the max-wait
window — it makes at most `3000 / 100 = 30` polls for any host behaviour —
and when every poll of the window fails (null responses against a cached
elevation of `0`), it sets the documented fallback elevation `0` and
`start()` still drives the controller into the steady `'orbit'` phase (once
the host's `easeTo` fires `moveend`) instead of hanging. -/
theorem C4_terrain_wait (s : OrbitController.State) (env : OrbitController.StartEnv)
    (hd : s.disposed = false) (hg : s.groundElevation = 0)
    (hpoll : ∀ i, env.hostDuringWait i = Except.ok none)
    (hw : ∀ i, env.disposedDuringWait i = false)
    (haw : env.disposedAfterWait = false)
    (hme : env.moveEndFires = true) (hdm : env.disposedAtMoveEnd = false)
    (hmee : env.hostAtMoveEnd = Except.ok none) :
    OrbitController.waitForTerrain env.hostDuringWait env.disposedDuringWait
        s.groundElevation = (0, false, 30)
    ∧ (∀ (host : ℕ → Except Unit (Option ℝ)) (dis : ℕ → Bool) (g : ℝ),
        (OrbitController.waitForTerrain host dis g).2.2 ≤ 30)
    ∧ (OrbitController.start s env).phase = OCPhase.orbit
    ∧ (OrbitController.start s env).groundElevation = 0 := by
  have hwait : OrbitController.waitForTerrain env.hostDuringWait env.disposedDuringWait
      s.groundElevation = (0, false, 30) := by
    apply OrbitController.waitAux_allFail
    · intro j
      rw [hpoll j, OrbitController.queryElevationRaw, hg]
    · exact hw
    · omega
    · omega
  refine ⟨hwait, ?_, ?_, ?_⟩
  · intro host dis g
    exact OrbitController.waitAux_poll_bound host dis g 31 0 (by omega)
  · simp [OrbitController.start, hd, haw, hme, hdm, hmee, hwait,
      OrbitController.refreshGroundElevation, OrbitController.queryElevation,
      OrbitController.queryElevationRaw]
  · simp [OrbitController.start, hd, haw, hme, hdm, hmee, hwait,
      OrbitController.refreshGroundElevation, OrbitController.queryElevation,
      OrbitController.queryElevationRaw]

/-- C4 witness: a concrete cold start with a host that never yields
terrain. -/
theorem C4_witness :
    ocFreshState.disposed = false ∧ ocFreshState.groundElevation = 0
    ∧ ocStartEnv.hostDuringWait 0 = Except.ok none
    ∧ (OrbitController.start ocFreshState ocStartEnv).phase = OCPhase.orbit
    ∧ (OrbitController.start ocFreshState ocStartEnv).groundElevation = 0 :=
  ⟨rfl, rfl, rfl,
   (C4_terrain_wait ocFreshState ocStartEnv rfl rfl (fun _ => rfl) (fun _ => rfl)
     rfl rfl rfl rfl).2.2.1,
   (C4_terrain_wait ocFreshState ocStartEnv rfl rfl (fun _ => rfl) (fun _ => rfl)
     rfl rfl rfl rfl).2.2.2⟩

theorem CinematicOrbit.tickIntro_isPaused
    (cb cr ch ctr cth cg clz : ℝ) (crun : Bool) (cpz : Bool) (caf : Bool)
    (cip : IntroPhase) (cist : Option ℝ) (now : ℝ) (b : Bool) :
    CinematicOrbit.tickIntro ⟨cb, cr, ch, ctr, cth, cg, clz, crun, b, caf, cip, cist⟩ now
      = { CinematicOrbit.tickIntro ⟨cb, cr, ch, ctr, cth, cg, clz, crun, cpz, caf, cip, cist⟩ now
          with isPaused := b } := by
  dsimp only [CinematicOrbit.tickIntro]
  split_ifs <;> rfl

/-- C10: in the hand-rolled-intro controllers (`CinematicOrbit` and
`SmoothCameraOrbit`), a frame executed during the running intro is
completely unaffected by `pause()`: the tick of the paused controller equals
the tick of the unpaused one with only the `isPaused` flag set (so radius,
height/altitude, bearing and the applied pose coincide).  The flag only
takes effect once the intro completes: a steady-orbit step of a paused
`CinematicOrbit` is the identity. -/
theorem C10_intro_ignores_pause (c : CinematicOrbit.CState) (env : CinematicOrbit.CTickEnv)
    (hrun : c.isRunning = true) (hintro : c.introPhase = IntroPhase.running)
    (c2 : CinematicOrbit.CState) (z : ℝ) (hp2 : c2.isPaused = true)
    (sm : SmoothCameraOrbit.SState) (senv : SmoothCameraOrbit.STickEnv)
    (hsrun : sm.isRunning = true) (hsintro : sm.introProgress < 1) :
    CinematicOrbit.tick (CinematicOrbit.pause c) env
      = ({ (CinematicOrbit.tick c env).1 with isPaused := true },
         (CinematicOrbit.tick c env).2)
    ∧ CinematicOrbit.tickOrbit c2 z = c2
    ∧ SmoothCameraOrbit.tick (SmoothCameraOrbit.pause sm) senv
      = ({ (SmoothCameraOrbit.tick sm senv).1 with isPaused := true },
         (SmoothCameraOrbit.tick sm senv).2) := by
  refine ⟨?_, ?_, ?_⟩
  · rcases env with ⟨now, rd, host, zoom⟩
    cases c with
    | mk cb cr ch ctr cth cg clz crun cpz caf cip cist =>
      subst hrun
      subst hintro
      cases rd
      · dsimp only [CinematicOrbit.tick, CinematicOrbit.pause,
          CinematicOrbit.updateGroundElevation]
        split_ifs <;>
          first
            | rfl
            | exact absurd rfl ‹¬true = true›
            | exact (‹False›).elim
            | (rw [CinematicOrbit.tickIntro_isPaused _ _ _ _ _ _ _ _ cpz]; try rfl)
      · cases host <;>
          (dsimp only [CinematicOrbit.tick, CinematicOrbit.pause,
            CinematicOrbit.updateGroundElevation]
           split_ifs <;>
             first
               | rfl
               | exact absurd rfl ‹¬true = true›
               | exact (‹False›).elim
               | (rw [CinematicOrbit.tickIntro_isPaused _ _ _ _ _ _ _ _ cpz]; try rfl))
  · rw [CinematicOrbit.tickOrbit, if_pos hp2]
  · rcases senv with ⟨now, zoom, rd, host⟩
    cases sm with
    | mk sb sp sca sip sg sist srun spz saf =>
      subst hsrun
      cases rd
      · dsimp only [SmoothCameraOrbit.tick, SmoothCameraOrbit.pause,
          SmoothCameraOrbit.updateGroundElevation]
        rw [if_pos hsintro, if_pos hsintro]
        split_ifs <;> first | rfl | exact absurd rfl ‹¬true = true› | exact (‹False›).elim
      · cases host <;>
          (dsimp only [SmoothCameraOrbit.tick, SmoothCameraOrbit.pause,
            SmoothCameraOrbit.updateGroundElevation]
           rw [if_pos hsintro, if_pos hsintro]
           split_ifs <;> first | rfl | exact absurd rfl ‹¬true = true› | exact (‹False›).elim)

theorem CinematicOrbit.easeInOutSine_zero : CinematicOrbit.easeInOutSine 0 = 0 := by
  rw [CinematicOrbit.easeInOutSine, mul_zero, Real.cos_zero]
  norm_num

theorem CinematicOrbit.easeInOutSine_one : CinematicOrbit.easeInOutSine 1 = 1 := by
  rw [CinematicOrbit.easeInOutSine, mul_one, Real.cos_pi]
  norm_num

theorem CinematicOrbit.easeInOutSine_mem (t : ℝ) :
    0 ≤ CinematicOrbit.easeInOutSine t ∧ CinematicOrbit.easeInOutSine t ≤ 1 := by
  rw [CinematicOrbit.easeInOutSine]
  constructor <;>
    nlinarith [Real.cos_le_one (Real.pi * t), Real.neg_one_le_cos (Real.pi * t)]

theorem CinematicOrbit.easeInOutSine_mono {a b : ℝ} (ha : 0 ≤ a) (hab : a ≤ b)
    (hb : b ≤ 1) : CinematicOrbit.easeInOutSine a ≤ CinematicOrbit.easeInOutSine b := by
  have hc : Real.cos (Real.pi * b) ≤ Real.cos (Real.pi * a) :=
    Real.cos_le_cos_of_nonneg_of_le_pi
      (mul_nonneg Real.pi_pos.le ha)
      (by nlinarith [Real.pi_pos])
      (mul_le_mul_of_nonneg_left hab Real.pi_pos.le)
  rw [CinematicOrbit.easeInOutSine, CinematicOrbit.easeInOutSine]
  linarith

theorem CinematicOrbit.easeOutQuart_zero : CinematicOrbit.easeOutQuart 0 = 0 := by
  norm_num [CinematicOrbit.easeOutQuart]

theorem CinematicOrbit.easeOutQuart_mem (t : ℝ) (h0 : 0 ≤ t) (h1 : t ≤ 1) :
    0 ≤ CinematicOrbit.easeOutQuart t ∧ CinematicOrbit.easeOutQuart t ≤ 1 := by
  rw [CinematicOrbit.easeOutQuart]
  constructor
  · have := pow_le_one₀ (a := 1 - t) (by linarith) (by linarith) (n := 4)
    linarith
  · have := pow_nonneg (a := 1 - t) (by linarith) 4
    linarith

theorem CinematicOrbit.easeOutQuart_mono {a b : ℝ} (hab : a ≤ b) (hb : b ≤ 1) :
    CinematicOrbit.easeOutQuart a ≤ CinematicOrbit.easeOutQuart b := by
  rw [CinematicOrbit.easeOutQuart, CinematicOrbit.easeOutQuart]
  have := pow_le_pow_left₀ (a := 1 - b) (b := 1 - a) (by linarith) (by linarith) 4
  linarith

theorem CinematicOrbit.easeSpiral_lt03 {t : ℝ} (h : t < 0.3) :
    CinematicOrbit.easeSpiral t = 0.15 * CinematicOrbit.easeInOutSine (t / 0.3) := by
  rw [CinematicOrbit.easeSpiral, if_pos h]
  ring

theorem CinematicOrbit.easeSpiral_mid {t : ℝ} (h3 : ¬t < 0.3) (h7 : t < 0.7) :
    CinematicOrbit.easeSpiral t = 0.15 + (t - 0.3) * 1.75 := by
  rw [CinematicOrbit.easeSpiral, if_neg h3, if_pos h7]

theorem CinematicOrbit.easeSpiral_hi {t : ℝ} (h3 : ¬t < 0.3) (h7 : ¬t < 0.7) :
    CinematicOrbit.easeSpiral t
      = 0.85 + 0.15 * CinematicOrbit.easeOutQuart ((t - 0.7) / 0.3) := by
  rw [CinematicOrbit.easeSpiral, if_neg h3, if_neg h7]

theorem CinematicOrbit.easeSpiral_zero : CinematicOrbit.easeSpiral 0 = 0 := by
  rw [CinematicOrbit.easeSpiral_lt03 (by norm_num), zero_div,
    CinematicOrbit.easeInOutSine_zero, mul_zero]

theorem CinematicOrbit.easeSpiral_mem (t : ℝ) (h0 : 0 ≤ t) (h1 : t ≤ 1) :
    0 ≤ CinematicOrbit.easeSpiral t ∧ CinematicOrbit.easeSpiral t ≤ 1 := by
  by_cases h3 : t < 0.3
  · rw [CinematicOrbit.easeSpiral_lt03 h3]
    have := CinematicOrbit.easeInOutSine_mem (t / 0.3)
    constructor <;> nlinarith
  · by_cases h7 : t < 0.7
    · rw [CinematicOrbit.easeSpiral_mid h3 h7]
      push_neg at h3
      constructor <;> nlinarith
    · rw [CinematicOrbit.easeSpiral_hi h3 h7]
      push_neg at h7
      have := CinematicOrbit.easeOutQuart_mem ((t - 0.7) / 0.3)
        (div_nonneg (by linarith) (by norm_num))
        ((div_le_one (by norm_num)).2 (by linarith))
      constructor <;> nlinarith [this.1, this.2]

theorem CinematicOrbit.easeSpiral_mono {a b : ℝ} (ha : 0 ≤ a) (hab : a ≤ b)
    (hb : b ≤ 1) : CinematicOrbit.easeSpiral a ≤ CinematicOrbit.easeSpiral b := by
  have hS := CinematicOrbit.easeInOutSine_mem (a / 0.3)
  by_cases ha3 : a < 0.3
  · by_cases hb3 : b < 0.3
    · rw [CinematicOrbit.easeSpiral_lt03 ha3, CinematicOrbit.easeSpiral_lt03 hb3]
      have := CinematicOrbit.easeInOutSine_mono (a := a / 0.3) (b := b / 0.3)
        (div_nonneg ha (by norm_num))
        ((div_le_div_right (by norm_num)).2 hab)
        ((div_le_one (by norm_num)).2 (by linarith))
      nlinarith
    · have hA : CinematicOrbit.easeSpiral a ≤ 0.15 := by
        rw [CinematicOrbit.easeSpiral_lt03 ha3]
        nlinarith [hS.2]
      by_cases hb7 : b < 0.7
      · rw [CinematicOrbit.easeSpiral_mid hb3 hb7]
        push_neg at hb3
        nlinarith
      · rw [CinematicOrbit.easeSpiral_hi hb3 hb7]
        push_neg at hb7
        have := CinematicOrbit.easeOutQuart_mem ((b - 0.7) / 0.3)
          (div_nonneg (by linarith) (by norm_num))
          ((div_le_one (by norm_num)).2 (by linarith))
        nlinarith [this.1]
  · by_cases hb7 : b < 0.7
    · have hb3 : ¬b < 0.3 := by
        push_neg at ha3 ⊢
        linarith
      rw [CinematicOrbit.easeSpiral_mid ha3 (by push_neg at ha3; linarith),
        CinematicOrbit.easeSpiral_mid hb3 hb7]
      linarith
    · by_cases ha7 : a < 0.7
      · have hA : CinematicOrbit.easeSpiral a ≤ 0.85 := by
          rw [CinematicOrbit.easeSpiral_mid ha3 ha7]
          nlinarith
        rw [CinematicOrbit.easeSpiral_hi (by push_neg at ha3; intro hcon; linarith) hb7]
        push_neg at hb7
        have := CinematicOrbit.easeOutQuart_mem ((b - 0.7) / 0.3)
          (div_nonneg (by linarith) (by norm_num))
          ((div_le_one (by norm_num)).2 (by linarith))
        nlinarith [this.1]
      · rw [CinematicOrbit.easeSpiral_hi ha3 ha7,
          CinematicOrbit.easeSpiral_hi (by push_neg at ha3; intro hcon; linarith)
            (by push_neg at ha7; intro hcon; linarith)]
        push_neg at ha7
        have := CinematicOrbit.easeOutQuart_mono
          (a := (a - 0.7) / 0.3) (b := (b - 0.7) / 0.3)
          ((div_le_div_right (by norm_num)).2 (by linarith))
          ((div_le_one (by norm_num)).2 (by linarith))
        nlinarith

/-- C8: the easing curves of the intro transition — `easeInOutSine`,
`easeOutQuart` and the multi-segment `easeSpiral` — are pure functions that
satisfy the contract: `easeOutQuart t = 1 - (1 - t)^4` identically, each
maps `[0, 1]` into `[0, 1]`, each fixes the endpoints (`f 0 = 0`,
`f 1 = 1`), and each is monotone (nondecreasing) on `[0, 1]`. -/
theorem C8_easing_contract :
    (∀ t : ℝ, CinematicOrbit.easeOutQuart t = 1 - (1 - t) ^ 4)
    ∧ CinematicOrbit.easeInOutSine 0 = 0 ∧ CinematicOrbit.easeInOutSine 1 = 1
    ∧ CinematicOrbit.easeOutQuart 0 = 0 ∧ CinematicOrbit.easeOutQuart 1 = 1
    ∧ CinematicOrbit.easeSpiral 0 = 0 ∧ CinematicOrbit.easeSpiral 1 = 1
    ∧ (∀ t : ℝ, 0 ≤ t → t ≤ 1 →
        (0 ≤ CinematicOrbit.easeInOutSine t ∧ CinematicOrbit.easeInOutSine t ≤ 1)
        ∧ (0 ≤ CinematicOrbit.easeOutQuart t ∧ CinematicOrbit.easeOutQuart t ≤ 1)
        ∧ (0 ≤ CinematicOrbit.easeSpiral t ∧ CinematicOrbit.easeSpiral t ≤ 1))
    ∧ (∀ a b : ℝ, 0 ≤ a → a ≤ b → b ≤ 1 →
        CinematicOrbit.easeInOutSine a ≤ CinematicOrbit.easeInOutSine b
        ∧ CinematicOrbit.easeOutQuart a ≤ CinematicOrbit.easeOutQuart b
        ∧ CinematicOrbit.easeSpiral a ≤ CinematicOrbit.easeSpiral b) := by
  refine ⟨fun t => rfl, CinematicOrbit.easeInOutSine_zero, CinematicOrbit.easeInOutSine_one,
    CinematicOrbit.easeOutQuart_zero, CinematicOrbit.easeOutQuart_one,
    CinematicOrbit.easeSpiral_zero, CinematicOrbit.easeSpiral_one, ?_, ?_⟩
  · intro t h0 h1
    exact ⟨CinematicOrbit.easeInOutSine_mem t, CinematicOrbit.easeOutQuart_mem t h0 h1,
      CinematicOrbit.easeSpiral_mem t h0 h1⟩
  · intro a b ha hab hb
    exact ⟨CinematicOrbit.easeInOutSine_mono ha hab hb,
      CinematicOrbit.easeOutQuart_mono hab hb,
      CinematicOrbit.easeSpiral_mono ha hab hb⟩

/-- C8 witness: the contract instantiated at `t = 1/2` and on the pair
`(0, 1/2)`. -/
theorem C8_witness :
    (0 : ℝ) ≤ 1 / 2 ∧ (1 / 2 : ℝ) ≤ 1
    ∧ (0 ≤ CinematicOrbit.easeSpiral (1 / 2) ∧ CinematicOrbit.easeSpiral (1 / 2) ≤ 1)
    ∧ CinematicOrbit.easeOutQuart 0 ≤ CinematicOrbit.easeOutQuart (1 / 2) :=
  ⟨by norm_num, by norm_num,
   (C8_easing_contract.2.2.2.2.2.2.2.1 (1 / 2) (by norm_num) (by norm_num)).2.2,
   (C8_easing_contract.2.2.2.2.2.2.2.2 0 (1 / 2) (by norm_num) (by norm_num)
     (by norm_num)).2.1⟩

/-- C10 witness: pause-independence of the intro frame evaluated on concrete
states of both controllers. -/
theorem C10_witness :
    ({ cinematicRunningState with introPhase := IntroPhase.running }
        : CinematicOrbit.CState).isRunning = true
    ∧ ({ cinematicRunningState with introPhase := IntroPhase.running }
        : CinematicOrbit.CState).introPhase = IntroPhase.running
    ∧ (CinematicOrbit.pause cinematicRunningState).isPaused = true
    ∧ smIntroState.isRunning = true ∧ smIntroState.introProgress < 1
    ∧ CinematicOrbit.tickOrbit (CinematicOrbit.pause cinematicRunningState) 14
        = CinematicOrbit.pause cinematicRunningState :=
  ⟨rfl, rfl, rfl, rfl, by norm_num [smIntroState],
   (C10_intro_ignores_pause
     { cinematicRunningState with introPhase := IntroPhase.running } cTickEnvFix rfl rfl
     (CinematicOrbit.pause cinematicRunningState) 14 rfl
     smIntroState smTickEnvFix rfl (by norm_num [smIntroState])).2.1⟩
